import Mathlib

/-!
Verification of the data-entry form controller and validation-feedback
state machine of the DifferencesForm (abacus polling-station data entry).

The repository slice at hand contains the component's test suite
(`DifferencesForm.test.tsx`) and fixtures; the component implementation
itself (NumericFieldFormatter, FieldSequencer, ValidationResultMapper,
WarningAcknowledgement, FormController) is not part of the slice, so the
definitions below model it from the specification and from the behaviour
the test suite pins down (keyboard bindings, formatted values, request
shape, feedback messages, acknowledgement flow).
-/

namespace Abacus

/-! ## NumericFieldFormatter -/

/-- Modelled from the spec: `NumericFieldFormatter.parse` of the missing
formatter implementation. Strips all non-digit characters and interprets
the remainder as a base-10 integer; empty input parses to 0. -/
def digitsToNat (cs : List Char) : Nat :=
  cs.foldl (fun n c => 10 * n + (c.toNat - 48)) 0

/-- Modelled from the spec: `parse(rawInput)` of the missing
NumericFieldFormatter. -/
def parse (s : String) : Nat :=
  digitsToNat (s.data.filter Char.isDigit)

/-- Fuel-driven digit extraction, least-significant first. -/
def natDigitsRevFuel : Nat → Nat → List Char
  | 0, _ => []
  | fuel + 1, n =>
    if n < 10 then [Nat.digitChar n]
    else Nat.digitChar (n % 10) :: natDigitsRevFuel fuel (n / 10)

/-- Decimal digits of `n`, least-significant first (`0` yields `['0']`). -/
def natDigitsRev (n : Nat) : List Char :=
  natDigitsRevFuel (n + 1) n

/-- Fuel-driven grouping: insert a `.` separator after every three
characters of a least-significant-first digit list. -/
def groupRevFuel : Nat → List Char → List Char
  | 0, cs => cs
  | fuel + 1, cs =>
    if cs.length ≤ 3 then cs
    else cs.take 3 ++ '.' :: groupRevFuel fuel (cs.drop 3)

/-- Insert a `.` thousands separator after every three characters of a
least-significant-first digit list. -/
def groupRev (cs : List Char) : List Char :=
  groupRevFuel cs.length cs

/-- Modelled from the spec: `format(value)` of the missing
NumericFieldFormatter — renders the integer with locale thousands
separators (`.` every three digits from the right), no decimal part. -/
def format (n : Nat) : String :=
  String.mk ((groupRev (natDigitsRev n)).reverse)

/-- Modelled from the spec: the configurable maximum digit count of a
numeric field (observed default 9 raw digits). -/
def maxDigits : Nat := 9

/-- Modelled from the spec: one keystroke into a numeric field's raw
digit buffer. Non-digit characters are stripped silently; keystrokes
beyond the maximum digit count are truncated (ignored). -/
def pressKey (buf : List Char) (c : Char) : List Char :=
  if c.isDigit ∧ buf.length < maxDigits then buf ++ [c] else buf

/-- Typing a sequence of characters into a field buffer. -/
def typeDigits (buf : List Char) (ds : List Char) : List Char :=
  ds.foldl pressKey buf

/-- The displayed text of a field: the canonical formatted rendering of
the buffer's numeric value (controlled/canonical-state field). -/
def displayOf (buf : List Char) : String :=
  format (digitsToNat buf)

/-! ## Formatter lemmas -/

theorem isDigit_toNat {c : Char} (h : c.isDigit = true) :
    48 ≤ c.toNat ∧ c.toNat ≤ 57 := by
  simp only [Char.isDigit, Bool.and_eq_true, decide_eq_true_eq, ge_iff_le] at h
  obtain ⟨h1, h2⟩ := h
  constructor
  · exact UInt32.le_toNat_of_le (by norm_num [UInt32.size]) h1
  · exact UInt32.toNat_le_of_le (by norm_num [UInt32.size]) h2

theorem digitChar_isDigit {d : Nat} (h : d < 10) :
    (Nat.digitChar d).isDigit = true := by
  interval_cases d <;> decide

theorem digitChar_toNat {d : Nat} (h : d < 10) :
    (Nat.digitChar d).toNat - 48 = d := by
  interval_cases d <;> decide

theorem natDigitsRevFuel_digits (fuel : Nat) :
    ∀ n, ∀ c ∈ natDigitsRevFuel fuel n, c.isDigit = true := by
  induction fuel with
  | zero => intro n c hc; simp [natDigitsRevFuel] at hc
  | succ fuel ih =>
    intro n c hc
    rw [natDigitsRevFuel] at hc
    by_cases h10 : n < 10
    · simp only [h10, if_true, List.mem_singleton] at hc
      subst hc
      exact digitChar_isDigit h10
    · simp only [h10, if_false, List.mem_cons] at hc
      rcases hc with h | h
      · subst h; exact digitChar_isDigit (Nat.mod_lt _ (by omega))
      · exact ih (n / 10) c h

theorem natDigitsRev_digits (n : Nat) :
    ∀ c ∈ natDigitsRev n, c.isDigit = true :=
  natDigitsRevFuel_digits (n + 1) n

/-- Value of a least-significant-first digit list. -/
def valRev : List Char → Nat
  | [] => 0
  | c :: cs => (c.toNat - 48) + 10 * valRev cs

theorem digitsToNat_append_singleton (cs : List Char) (c : Char) :
    digitsToNat (cs ++ [c]) = 10 * digitsToNat cs + (c.toNat - 48) := by
  simp [digitsToNat, List.foldl_append]

theorem digitsToNat_reverse (cs : List Char) :
    digitsToNat cs.reverse = valRev cs := by
  induction cs with
  | nil => rfl
  | cons c cs ih =>
    simp only [List.reverse_cons, digitsToNat_append_singleton, ih, valRev]
    omega

theorem valRev_natDigitsRevFuel (fuel : Nat) :
    ∀ n, n < fuel → valRev (natDigitsRevFuel fuel n) = n := by
  induction fuel with
  | zero => intro n h; omega
  | succ fuel ih =>
    intro n h
    rw [natDigitsRevFuel]
    by_cases h10 : n < 10
    · simp [h10, valRev, digitChar_toNat h10]
    · have hdiv : n / 10 < fuel := by
        have := Nat.div_lt_self (show 0 < n by omega) (show 1 < 10 by omega)
        omega
      simp only [h10, if_false, valRev, digitChar_toNat (Nat.mod_lt _ (by omega)),
        ih (n / 10) hdiv]
      omega

theorem valRev_natDigitsRev (n : Nat) : valRev (natDigitsRev n) = n :=
  valRev_natDigitsRevFuel (n + 1) n (Nat.lt_succ_self n)

theorem groupRevFuel_filter (fuel : Nat) :
    ∀ cs : List Char,
      (groupRevFuel fuel cs).filter Char.isDigit = cs.filter Char.isDigit := by
  induction fuel with
  | zero => intro cs; rfl
  | succ fuel ih =>
    intro cs
    rw [groupRevFuel]
    by_cases h3 : cs.length ≤ 3
    · simp [h3]
    · simp only [h3, if_false]
      rw [List.filter_append, List.filter_cons]
      simp only [show ('.').isDigit = false from rfl, Bool.false_eq_true, if_false]
      rw [ih (cs.drop 3), ← List.filter_append, List.take_append_drop]

theorem groupRev_filter (cs : List Char) :
    (groupRev cs).filter Char.isDigit = cs.filter Char.isDigit :=
  groupRevFuel_filter cs.length cs

theorem parse_format (n : Nat) : parse (format n) = n := by
  unfold parse format
  have hdata : (String.mk ((groupRev (natDigitsRev n)).reverse)).data
      = (groupRev (natDigitsRev n)).reverse := rfl
  rw [hdata, List.filter_reverse, groupRev_filter,
    List.filter_eq_self.mpr (natDigitsRev_digits n), digitsToNat_reverse,
    valRev_natDigitsRev]

theorem typeDigits_all_digits (ds : List Char) :
    ∀ buf : List Char, (∀ c ∈ ds, c.isDigit = true) →
      typeDigits buf ds = buf ++ ds.take (maxDigits - buf.length) := by
  induction ds with
  | nil => intro buf _; simp [typeDigits]
  | cons c ds ih =>
    intro buf hds
    have hc : c.isDigit = true := hds c (List.mem_cons_self c ds)
    by_cases hlen : buf.length < maxDigits
    · have hstep : pressKey buf c = buf ++ [c] := by
        simp [pressKey, hc, hlen]
      have : typeDigits buf (c :: ds) = typeDigits (buf ++ [c]) ds := by
        simp [typeDigits, hstep]
      rw [this, ih (buf ++ [c]) (fun x hx => hds x (List.mem_cons_of_mem c hx))]
      have hm : maxDigits - buf.length = (maxDigits - (buf.length + 1)) + 1 := by
        omega
      simp [hm, List.take_succ_cons]
    · have hstep : pressKey buf c = buf := by
        simp [pressKey]; omega
      have : typeDigits buf (c :: ds) = typeDigits buf ds := by
        simp [typeDigits, hstep]
      rw [this, ih buf (fun x hx => hds x (List.mem_cons_of_mem c hx))]
      have hm : maxDigits - buf.length = 0 := by omega
      simp [hm]

theorem typeDigits_short (ds : List Char) (hd : ∀ c ∈ ds, c.isDigit = true)
    (hlen : ds.length ≤ maxDigits) : typeDigits [] ds = ds := by
  rw [typeDigits_all_digits ds [] hd]
  simp [List.take_of_length_le (by simpa using hlen)]

theorem digitsToNat_lt_aux (cs : List Char) :
    ∀ a : Nat, (∀ c ∈ cs, c.isDigit = true) →
      cs.foldl (fun n c => 10 * n + (c.toNat - 48)) a < (a + 1) * 10 ^ cs.length := by
  induction cs with
  | nil => intro a _; simp
  | cons c cs ih =>
    intro a h
    have hc := isDigit_toNat (h c (List.mem_cons_self c cs))
    have := ih (10 * a + (c.toNat - 48)) (fun x hx => h x (List.mem_cons_of_mem c hx))
    have hle : (10 * a + (c.toNat - 48) + 1) * 10 ^ cs.length
        ≤ (a + 1) * 10 ^ (cs.length + 1) := by
      have : 10 * a + (c.toNat - 48) + 1 ≤ (a + 1) * 10 := by omega
      calc (10 * a + (c.toNat - 48) + 1) * 10 ^ cs.length
          ≤ ((a + 1) * 10) * 10 ^ cs.length :=
            Nat.mul_le_mul_right _ this
        _ = (a + 1) * 10 ^ (cs.length + 1) := by ring
    calc (c :: cs).foldl (fun n c => 10 * n + (c.toNat - 48)) a
        = cs.foldl (fun n c => 10 * n + (c.toNat - 48)) (10 * a + (c.toNat - 48)) := rfl
      _ < (10 * a + (c.toNat - 48) + 1) * 10 ^ cs.length := this
      _ ≤ (a + 1) * 10 ^ (cs.length + 1) := hle

theorem digitsToNat_lt (cs : List Char) (h : ∀ c ∈ cs, c.isDigit = true) :
    digitsToNat cs < 10 ^ cs.length := by
  have := digitsToNat_lt_aux cs 0 h
  simp only [Nat.zero_add, Nat.one_mul] at this
  exact this

/-! ## Validation data model -/

/-- One reported problem from the validation service, as in the response
JSON: `{ fields: string[], code: string }`. -/
structure ValidationIssue where
  fields : List String
  code : String
deriving DecidableEq

/-- The `validation_results` of one submission response:
`{ errors: ValidationIssue[], warnings: ValidationIssue[] }`. -/
structure ValidationOutcome where
  errors : List ValidationIssue
  warnings : List ValidationIssue
deriving DecidableEq

/-- The dotted field paths of the DifferencesForm, in focus order
(mirrors `getFormFields()` of the test suite). -/
def fieldPath : Nat → String
  | 0 => "data.differences_counts.more_ballots_count"
  | 1 => "data.differences_counts.fewer_ballots_count"
  | 2 => "data.differences_counts.unreturned_ballots_count"
  | 3 => "data.differences_counts.too_few_ballots_handed_out_count"
  | 4 => "data.differences_counts.too_many_ballots_handed_out_count"
  | 5 => "data.differences_counts.other_explanation_count"
  | _ => "data.differences_counts.no_explanation_count"

/-- The declared field-path universe of the DifferencesForm. -/
def declaredFields : List String := (List.range 7).map fieldPath

/-- Rendered feedback text per issue code: title, code, explanation and
remediation guidance, exactly as asserted by the test suite. -/
def feedbackText : String → String
  | "F301" => "Controleer I (stembiljetten meer geteld)F.301Je hebt bij Aantal kiezers en stemmers ingevuld dat er meer stemmen dan kiezers waren. Het aantal dat je bij I hebt ingevuld is niet gelijk aan het aantal meer getelde stembiljetten.Check of je het papieren proces-verbaal goed hebt overgenomen.Heb je iets niet goed overgenomen? Herstel de fout en ga verder.Heb je alles goed overgenomen, en blijft de fout? Dan mag je niet verder. Overleg met de coördinator."
  | "F302" => "Controleer J (stembiljetten minder geteld)F.302Je hebt bij Aantal kiezers en stemmers ingevuld dat er meer stemmen dan kiezers waren. Daarom mag J niet ingevuld zijn.Check of je het papieren proces-verbaal goed hebt overgenomen.Heb je iets niet goed overgenomen? Herstel de fout en ga verder.Heb je alles goed overgenomen, en blijft de fout? Dan mag je niet verder. Overleg met de coördinator."
  | "F303" => "Controleer J (stembiljetten minder geteld)F.303Je hebt bij Aantal kiezers en stemmers ingevuld dat er minder stemmen dan kiezers waren. Het aantal dat je bij J hebt ingevuld is niet gelijk aan het aantal minder getelde stembiljetten.Check of je het papieren proces-verbaal goed hebt overgenomen.Heb je iets niet goed overgenomen? Herstel de fout en ga verder.Heb je alles goed overgenomen, en blijft de fout? Dan mag je niet verder. Overleg met de coördinator."
  | "F304" => "Controleer I (stembiljetten meer geteld)F.304Je hebt bij Aantal kiezers en stemmers ingevuld dat er minder stemmen dan kiezers waren. Daarom mag I niet ingevuld zijn.Check of je het papieren proces-verbaal goed hebt overgenomen.Heb je iets niet goed overgenomen? Herstel de fout en ga verder.Heb je alles goed overgenomen, en blijft de fout? Dan mag je niet verder. Overleg met de coördinator."
  | "F305" => "Controleer ingevulde verschillenF.305Je hebt bij Aantal kiezers en stemmers ingevuld dat er evenveel stemmen als kiezers waren. Maar je hebt wel verschillen ingevuld.Check of je het papieren proces-verbaal goed hebt overgenomen.Heb je iets niet goed overgenomen? Herstel de fout en ga verder.Heb je alles goed overgenomen, en blijft de fout? Dan mag je niet verder. Overleg met de coördinator."
  | "W301" => "Controleer ingevulde verschillenW.301De invoer bij I, K, L, M, N of O klopt niet.Check of je het papieren proces-verbaal goed hebt overgenomen.Heb je iets niet goed overgenomen? Herstel de fout en ga verder.Heb je alles gecontroleerd en komt je invoer overeen met het papier? Ga dan verder."
  | "W302" => "Controleer ingevulde verschillenW.302De invoer bij J, K, L, M, N of O klopt niet.Check of je het papieren proces-verbaal goed hebt overgenomen.Heb je iets niet goed overgenomen? Herstel de fout en ga verder.Heb je alles gecontroleerd en komt je invoer overeen met het papier? Ga dan verder."
  | _ => ""

/-- Modelled from the spec: `render(issue)` of the missing
ValidationResultMapper — one human-readable block per issue, keyed by
its code; issues covering several fields share one rendered message. -/
def render (i : ValidationIssue) : String := feedbackText i.code

/-- Per-field severity of the derived UI state. -/
inductive Severity
  | none
  | error
  | warning
deriving DecidableEq

/-- Derived per-field UI state: severity plus the rendered message of the
single covering issue (error wins over warning). -/
structure FieldMark where
  severity : Severity
  message : String
deriving DecidableEq

/-- Step 2 of the mapper algorithm: one error issue marks each of its
declared fields as `error`, overwriting any prior assignment. -/
def applyErrorIssue (m : String → FieldMark) (i : ValidationIssue) :
    String → FieldMark :=
  fun f =>
    if f ∈ declaredFields ∧ f ∈ i.fields then ⟨Severity.error, render i⟩ else m f

/-- Step 3 of the mapper algorithm: one warning issue marks each of its
declared fields as `warning`, only if no error has already claimed it. -/
def applyWarningIssue (m : String → FieldMark) (i : ValidationIssue) :
    String → FieldMark :=
  fun f =>
    if f ∈ declaredFields ∧ f ∈ i.fields ∧ (m f).severity ≠ Severity.error then
      ⟨Severity.warning, render i⟩
    else m f

/-- Modelled from the spec: `ValidationResultMapper.annotate` of the
missing mapper implementation. Initializes every field to
`{severity: none, message: ""}`, then applies all error issues, then all
warning issues; field paths outside the declared universe are a silent
no-op. -/
def annotate (o : ValidationOutcome) : String → FieldMark :=
  o.warnings.foldl applyWarningIssue
    (o.errors.foldl applyErrorIssue (fun _ => ⟨Severity.none, ""⟩))

/-! ## Form controller state machine -/

/-- Controller phases: `Editing → Submitting → Accepted | Blocked`. -/
inductive Phase
  | editing
  | submitting
  | accepted
  | blockedErrors
  | blockedWarnings
deriving DecidableEq

/-- Modelled from the spec: the state owned by the missing
PollingStationFormController — raw digit buffers of the seven fields,
focused field index (7 = the submit control), phase, the most recent
ValidationOutcome and the warning-acknowledgement gate. -/
structure FormState where
  buffers : Nat → List Char
  focus : Nat
  phase : Phase
  outcome : Option ValidationOutcome
  acknowledged : Bool

/-- The freshly mounted form: zero-filled values, first field focused. -/
def initialState : FormState :=
  { buffers := fun _ => []
  , focus := 0
  , phase := Phase.editing
  , outcome := Option.none
  , acknowledged := false }

/-- Input events of the controller. A plain line-break and a modified
(Shift) line-break are distinguished; a submission response arrives as
an event of its own. -/
inductive InputEvent
  | key (c : Char)
  | plainEnter
  | shiftEnter
  | clickSubmit
  | toggleAck
  | response (o : ValidationOutcome)

/-- The seven integer difference counts of the request body
(`data.differences_counts`). -/
structure DifferencesCounts where
  more_ballots_count : Nat
  fewer_ballots_count : Nat
  unreturned_ballots_count : Nat
  too_few_ballots_handed_out_count : Nat
  too_many_ballots_handed_out_count : Nat
  other_explanation_count : Nat
  no_explanation_count : Nat
deriving DecidableEq

/-- The current form values, read from the raw digit buffers. -/
def currentCounts (s : FormState) : DifferencesCounts :=
  { more_ballots_count := digitsToNat (s.buffers 0)
  , fewer_ballots_count := digitsToNat (s.buffers 1)
  , unreturned_ballots_count := digitsToNat (s.buffers 2)
  , too_few_ballots_handed_out_count := digitsToNat (s.buffers 3)
  , too_many_ballots_handed_out_count := digitsToNat (s.buffers 4)
  , other_explanation_count := digitsToNat (s.buffers 5)
  , no_explanation_count := digitsToNat (s.buffers 6) }

/-- A submission request as observed by the test suite:
`POST /api/polling_stations/{stationId}/data_entries/{entryNumber}` with
the difference counts in the body under `data.differences_counts`. -/
structure Request where
  url : String
  method : String
  differences_counts : DifferencesCounts
deriving DecidableEq

/-- Modelled from the spec: serialization of the FormValues into the
request payload by the missing controller. -/
def buildRequest (stationId entryNumber : Nat) (s : FormState) : Request :=
  { url := "/api/polling_stations/" ++ toString stationId
      ++ "/data_entries/" ++ toString entryNumber
  , method := "POST"
  , differences_counts := currentCounts s }

/-- Observable output of one controller step: network requests issued
(at most one) and a transient alert, if any. -/
structure StepOut where
  requests : List Request
  alert : Option String
deriving DecidableEq

/-- A step with no observable side effect. -/
def silentOut : StepOut := ⟨[], Option.none⟩

/-- The alert raised when submitting past unacknowledged warnings,
exactly as asserted by the test suite. -/
def ackAlertText : String :=
  "Je kan alleen verder als je het het papieren proces-verbaal hebt gecontroleerd."

/-- Modelled from the spec: `requiresAcknowledgement(outcome)` of the
missing WarningAcknowledgement gate — true iff `errors` is empty and
`warnings` is non-empty. -/
def requiresAck (o : ValidationOutcome) : Bool :=
  o.errors.isEmpty && !o.warnings.isEmpty

/-- Whether the current state blocks a submit on the acknowledgement
gate: the last outcome was warnings-only and not yet acknowledged. -/
def submitBlockedByAck (s : FormState) : Bool :=
  match s.outcome with
  | Option.some o => requiresAck o && !s.acknowledged
  | Option.none => false

/-- The code set identifying a ValidationOutcome, used to decide whether
a new outcome differs from the previous one. -/
def codeSet (o : ValidationOutcome) : List String :=
  o.errors.map (fun i => i.code) ++ o.warnings.map (fun i => i.code)

/-- Modelled from the spec: the explicit submit action of the missing
controller. An in-flight submission disables the trigger; a
warnings-only outcome that is not acknowledged raises the
acknowledgement alert instead of a network request; otherwise exactly
one request is issued and the controller enters `Submitting`. -/
def trySubmit (stationId entryNumber : Nat) (s : FormState) :
    FormState × StepOut :=
  if s.phase = Phase.submitting then (s, silentOut)
  else if submitBlockedByAck s then (s, ⟨[], Option.some ackAlertText⟩)
  else ({ s with phase := Phase.submitting },
    ⟨[buildRequest stationId entryNumber s], Option.none⟩)

/-- The acknowledgement carried into a new outcome: it survives only
when the new outcome has the same code set as the previous one (the gate
is reset by any different outcome and never pre-exists the first). -/
def ackCarried (s : FormState) (o : ValidationOutcome) : Bool :=
  match s.outcome with
  | Option.some prev => if codeSet prev = codeSet o then s.acknowledged else false
  | Option.none => false

/-- Modelled from the spec: handling of a completed submission response.
Non-empty errors block, warnings block until acknowledged, and a clean
or acknowledged outcome is accepted. -/
def applyResponse (s : FormState) (o : ValidationOutcome) : FormState :=
  let ack : Bool := ackCarried s o
  match o.errors with
  | _ :: _ =>
    { s with
        outcome := Option.some o
        acknowledged := ack
        phase := Phase.blockedErrors }
  | [] =>
    match o.warnings with
    | [] =>
      { s with
          outcome := Option.some o
          acknowledged := ack
          phase := Phase.accepted }
    | _ :: _ =>
      if ack then
        { s with
            outcome := Option.some o
            acknowledged := ack
            phase := Phase.accepted }
      else
        { s with
            outcome := Option.some o
            acknowledged := ack
            phase := Phase.blockedWarnings }

/-- Modelled from the spec and the test suite: one controller step. A
keystroke edits the focused buffer; a plain line-break commits the value
and advances focus without any request; a modified line-break and the
submit control both invoke the explicit submit action; the checkbox
toggles the acknowledgement gate; a response is applied only while a
submission is in flight. -/
def step (stationId entryNumber : Nat) (s : FormState) (e : InputEvent) :
    FormState × StepOut :=
  match e with
  | InputEvent.key c =>
    ({ s with
        buffers := fun i => if i = s.focus then pressKey (s.buffers i) c else s.buffers i
      , phase := if s.phase = Phase.submitting then Phase.submitting else Phase.editing },
      silentOut)
  | InputEvent.plainEnter =>
    ({ s with focus := min (s.focus + 1) 7 }, silentOut)
  | InputEvent.shiftEnter => trySubmit stationId entryNumber s
  | InputEvent.clickSubmit => trySubmit stationId entryNumber s
  | InputEvent.toggleAck => ({ s with acknowledged := !s.acknowledged }, silentOut)
  | InputEvent.response o =>
    if s.phase = Phase.submitting then (applyResponse s o, silentOut)
    else (s, silentOut)

/-- Run a list of input events from a state, accumulating every issued
request in order. -/
def runTrace (stationId entryNumber : Nat) (s : FormState)
    (es : List InputEvent) : FormState × List Request :=
  es.foldl
    (fun acc e =>
      let r := step stationId entryNumber acc.1 e
      (r.1, acc.2 ++ r.2.requests))
    (s, [])

/-- Whether an event is an explicit submit action (submit-control
activation or modified line-break). -/
def isSubmitEvent : InputEvent → Bool
  | InputEvent.shiftEnter => true
  | InputEvent.clickSubmit => true
  | _ => false

/-- Number of explicit submit actions in an event sequence. -/
def countSubmits (es : List InputEvent) : Nat :=
  (es.filter isSubmitEvent).length

/-! ## Displayed feedback -/

/-- Displayed severity of a field: the mapper's mark for the most recent
outcome, except that acknowledged warnings display as valid. -/
def fieldSeverity (s : FormState) (f : String) : Severity :=
  match s.outcome with
  | Option.none => Severity.none
  | Option.some o =>
    let m := annotate o f
    if m.severity = Severity.warning ∧ s.acknowledged then Severity.none
    else m.severity

/-- Accessible per-field feedback message: present only when the field
displays a non-`none` severity. -/
def fieldMessage (s : FormState) (f : String) : String :=
  match s.outcome with
  | Option.none => ""
  | Option.some o =>
    if fieldSeverity s f = Severity.none then "" else (annotate o f).message

/-- The aggregate error banner: one rendered block per error issue of
the most recent outcome. -/
def errorBanner (s : FormState) : List String :=
  match s.outcome with
  | Option.some o => o.errors.map render
  | Option.none => []

/-- The aggregate warning banner: one rendered block per warning issue
of the most recent outcome. -/
def warningBanner (s : FormState) : List String :=
  match s.outcome with
  | Option.some o => o.warnings.map render
  | Option.none => []

/-! ## Concrete fixtures (from the test suite) -/

/-- The F.301 error response of the test `F.301 IncorrectDifference`. -/
def outcomeF301 : ValidationOutcome :=
  ⟨[⟨[fieldPath 0], "F301"⟩], []⟩

/-- The W.301 warnings-only response of the test `clicking next without
accepting warning results in alert shown and then accept warning`. -/
def outcomeW301 : ValidationOutcome :=
  ⟨[], [⟨[fieldPath 0, fieldPath 4, fieldPath 3, fieldPath 2, fieldPath 5, fieldPath 6],
        "W301"⟩]⟩

/-- The freshly mounted form with a submission in flight. -/
def submittingState : FormState :=
  { initialState with phase := Phase.submitting }

/-- The form right after the W.301 warnings-only response: blocked on
warnings, not yet acknowledged. -/
def warnBlockedState : FormState :=
  applyResponse submittingState outcomeW301

/-- The form after typing `12345` into the first (focused, non-terminal)
field, as in the enter/shift+enter keybinding tests. -/
def typed12345 : FormState :=
  (runTrace 1 1 initialState (("12345".data).map InputEvent.key)).1

/-- The trace of the acknowledgement test: submit, warnings-only
response, then submit again without acknowledging. -/
def gateTrace : List InputEvent :=
  [InputEvent.clickSubmit, InputEvent.response outcomeW301, InputEvent.clickSubmit]

/-! ## Claims -/

/-- C1. For every ValidationOutcome, submission proceeds to the next
workflow step (the controller reaches `Accepted`) if and only if the
outcome's errors list is empty and (its warnings list is empty or the
acknowledgement gate carries over to this outcome); otherwise the
controller blocks on the form. -/
theorem submission_gate (sid en : Nat) (s : FormState) (o : ValidationOutcome)
    (h : s.phase = Phase.submitting) :
    ((step sid en s (InputEvent.response o)).1.phase = Phase.accepted ↔
      (o.errors = [] ∧ (o.warnings = [] ∨ ackCarried s o = true))) ∧
    ((step sid en s (InputEvent.response o)).1.phase = Phase.accepted ∨
      (step sid en s (InputEvent.response o)).1.phase = Phase.blockedErrors ∨
      (step sid en s (InputEvent.response o)).1.phase = Phase.blockedWarnings) := by
  have hstep : (step sid en s (InputEvent.response o)).1 = applyResponse s o := by
    simp [step, h]
  rw [hstep, applyResponse]
  cases herr : o.errors with
  | cons e es => simp [herr]
  | nil =>
    cases hw : o.warnings with
    | nil => simp
    | cons w ws =>
      cases hack : ackCarried s o with
      | true => simp
      | false => simp

/-- C1 witness: a clean response (no errors, no warnings) to an
in-flight submission is accepted. -/
theorem submission_gate_witness :
    (step 1 1 submittingState (InputEvent.response ⟨[], []⟩)).1.phase
      = Phase.accepted := by
  have h := submission_gate 1 1 submittingState ⟨[], []⟩ (by decide)
  exact h.1.mpr ⟨rfl, Or.inl rfl⟩

/-- C2 counterexample: on the trace submit → warnings-only response →
submit again (unacknowledged), only one network request is issued for
two explicit submit actions, so "exactly one network call is issued per
explicit submit action" fails as stated. -/
theorem submit_per_action_cex :
    (runTrace 1 1 initialState gateTrace).2.length = 1 ∧
    countSubmits gateTrace = 2 := by
  constructor
  · rfl
  · rfl

/-- C2 amended: an unmodified line-break never causes a network call,
and an explicit submit action issues exactly one network call unless it
is blocked (a submission already in flight, or a warnings-only outcome
not yet acknowledged), in which case it issues none; no other event
issues one. -/
theorem one_call_per_unblocked_submit (sid en : Nat) (s : FormState)
    (e : InputEvent) :
    (e = InputEvent.plainEnter → (step sid en s e).2.requests = []) ∧
    (isSubmitEvent e = false → (step sid en s e).2.requests = []) ∧
    (isSubmitEvent e = true →
      (step sid en s e).2.requests.length =
        if s.phase = Phase.submitting ∨ submitBlockedByAck s = true then 0
        else 1) := by
  refine ⟨?_, ?_, ?_⟩
  · intro he; subst he; rfl
  · intro he
    cases e with
    | key c => rfl
    | plainEnter => rfl
    | toggleAck => rfl
    | response o => simp only [step]; split <;> rfl
    | shiftEnter => simp [isSubmitEvent] at he
    | clickSubmit => simp [isSubmitEvent] at he
  · intro he
    cases e <;> simp [isSubmitEvent] at he <;>
      · simp only [step, trySubmit]
        by_cases h1 : s.phase = Phase.submitting
        · simp [h1, silentOut]
        · by_cases h2 : submitBlockedByAck s = true
          · simp [h1, h2]
          · simp [h1, h2]

/-- C2 amended witness: from the freshly mounted form, one explicit
submit issues exactly one request. -/
theorem one_call_per_unblocked_submit_witness :
    (step 1 1 initialState InputEvent.clickSubmit).2.requests.length = 1 := by
  have h := (one_call_per_unblocked_submit 1 1 initialState
    InputEvent.clickSubmit).2.2 (by decide)
  exact h.trans (by decide)

/-- C3 counterexample: with focus on the first (non-terminal) field
holding `12.345`, a modified line-break (Shift+Enter) does issue a
submission request, contradicting "only from the terminal control does
the modified line-break trigger submission". -/
theorem shiftEnter_nonterminal_cex :
    typed12345.focus = 0 ∧
    displayOf (typed12345.buffers 0) = "12.345" ∧
    (step 1 1 typed12345 InputEvent.shiftEnter).2.requests.length = 1 ∧
    (step 1 1 typed12345 InputEvent.shiftEnter).1.phase = Phase.submitting := by
  decide

/-- C3 amended: for every focused field, terminal or not, the modified
line-break (Shift+Enter) invokes the explicit submit action: unless the
submission is blocked, it issues exactly one submission request, enters
the `Submitting` phase and does not advance focus. -/
theorem shiftEnter_submits (sid en : Nat) (s : FormState)
    (h1 : s.phase ≠ Phase.submitting) (h2 : submitBlockedByAck s = false) :
    (step sid en s InputEvent.shiftEnter).2.requests = [buildRequest sid en s] ∧
    (step sid en s InputEvent.shiftEnter).1.phase = Phase.submitting ∧
    (step sid en s InputEvent.shiftEnter).1.focus = s.focus := by
  simp [step, trySubmit, h1, h2]

/-- C3 amended witness: Shift+Enter from the first field of the typed
form issues a request and keeps focus on that field. -/
theorem shiftEnter_submits_witness :
    (step 1 1 typed12345 InputEvent.shiftEnter).2.requests
      = [buildRequest 1 1 typed12345] ∧
    (step 1 1 typed12345 InputEvent.shiftEnter).1.focus = 0 := by
  have h := shiftEnter_submits 1 1 typed12345 (by decide) (by decide)
  exact ⟨h.1, h.2.2.trans rfl⟩

/-- C4 counterexample: with focus on the first field, the base
line-break without modifier advances focus to the second field — it is
not swallowed, contradicting "only the commit signal (a modified
line-break) advances focus". -/
theorem plainEnter_swallowed_cex :
    typed12345.focus = 0 ∧
    (step 1 1 typed12345 InputEvent.plainEnter).1.focus = 1 ∧
    (step 1 1 typed12345 InputEvent.plainEnter).2.requests = [] := by
  decide

/-- C4 amended: for every focused field, the plain line-break commits
the field's value (buffers unchanged) and advances focus to the next
field (capped at the submit control) while issuing no request and no
alert; the modified line-break never advances focus. -/
theorem plainEnter_advances (sid en : Nat) (s : FormState) :
    (step sid en s InputEvent.plainEnter).1.focus = min (s.focus + 1) 7 ∧
    (step sid en s InputEvent.plainEnter).2.requests = [] ∧
    (step sid en s InputEvent.plainEnter).2.alert = Option.none ∧
    (∀ i, (step sid en s InputEvent.plainEnter).1.buffers i = s.buffers i) ∧
    (step sid en s InputEvent.shiftEnter).1.focus = s.focus := by
  refine ⟨rfl, rfl, rfl, fun i => rfl, ?_⟩
  simp only [step, trySubmit]
  by_cases h1 : s.phase = Phase.submitting
  · simp [h1]
  · by_cases h2 : submitBlockedByAck s = true
    · simp [h1, h2]
    · simp [h1, h2]

/-- C4 amended witness: from the typed form, plain Enter advances focus
from the first field and issues no request. -/
theorem plainEnter_advances_witness :
    (step 1 1 typed12345 InputEvent.plainEnter).1.focus
      = min (typed12345.focus + 1) 7 ∧
    (step 1 1 typed12345 InputEvent.plainEnter).2.requests = [] := by
  have h := plainEnter_advances 1 1 typed12345
  exact ⟨h.1, h.2.1⟩

/-- C5. For every keystroke sequence producing digits d1…dn with n ≤ 9,
the displayed text equals `format(parse(d1…dn))` and re-parsing the
displayed text yields the same integer. -/
theorem round_trip (ds : List Char) (hd : ∀ c ∈ ds, c.isDigit = true)
    (hn : ds.length ≤ 9) :
    displayOf (typeDigits [] ds) = format (parse (String.mk ds)) ∧
    parse (displayOf (typeDigits [] ds)) = parse (String.mk ds) := by
  have hds : typeDigits [] ds = ds := typeDigits_short ds hd hn
  have hparse : parse (String.mk ds) = digitsToNat ds := by
    unfold parse
    have hdata : (String.mk ds).data = ds := rfl
    rw [hdata, List.filter_eq_self.mpr hd]
  refine ⟨?_, ?_⟩
  · rw [hds, hparse]; rfl
  · rw [hds]
    unfold displayOf
    rw [parse_format, hparse]

/-- C5 witness: typing `12345` displays `12.345`, which parses back to
`12345`. -/
theorem round_trip_witness :
    displayOf (typeDigits [] ("12345".data)) = "12.345" ∧
    parse "12.345" = 12345 := by
  have h := round_trip ("12345".data) (by decide) (by decide)
  exact ⟨h.1.trans (by decide), by decide⟩

/-- C6. Keystrokes beyond the maximum digit count (9 raw digits) are
truncated: no typed field value exceeds 999999999, and typing ten digits
yields the nine-digit prefix. -/
theorem max_digits_truncates (ds : List Char)
    (hd : ∀ c ∈ ds, c.isDigit = true) :
    digitsToNat (typeDigits [] ds) ≤ 999999999 ∧
    (ds.length = 10 → typeDigits [] ds = ds.take 9) := by
  have hall : typeDigits [] ds = ds.take 9 := by
    have h := typeDigits_all_digits ds [] hd
    simpa [maxDigits] using h
  refine ⟨?_, fun _ => hall⟩
  rw [hall]
  have hdig : ∀ c ∈ ds.take 9, c.isDigit = true :=
    fun c hc => hd c (List.mem_of_mem_take hc)
  have hlt := digitsToNat_lt (ds.take 9) hdig
  have hlen : (ds.take 9).length ≤ 9 := by
    rw [List.length_take]
    exact Nat.min_le_left _ _
  have hpow : (10 : Nat) ^ (ds.take 9).length ≤ 10 ^ 9 :=
    Nat.pow_le_pow_right (by omega) hlen
  have h9 : (10 : Nat) ^ 9 = 1000000000 := by norm_num
  omega

/-- C6 witness: typing ten digits `1000000000` keeps the nine-digit
prefix `100000000`, displayed as `100.000.000`. -/
theorem max_digits_truncates_witness :
    typeDigits [] ("1000000000".data) = "100000000".data ∧
    digitsToNat (typeDigits [] ("1000000000".data)) = 100000000 ∧
    displayOf (typeDigits [] ("1000000000".data)) = "100.000.000" := by
  have h := max_digits_truncates ("1000000000".data) (by decide)
  exact ⟨(h.2 (by decide)).trans (by decide), by decide, by decide⟩

/-- The form state right after the F.301 error response to an in-flight
submission from the freshly mounted form. -/
def stateF301 : FormState :=
  (step 1 1 submittingState (InputEvent.response outcomeF301)).1

set_option maxRecDepth 8192 in
/-- C7. On a response with exactly one F301 error issue covering
`data.differences_counts.more_ballots_count` and no warnings, exactly
that field is annotated error with the rendered F301 message, the six
other difference fields are annotated none, the aggregate error banner
shows the F301 message once, the warning banner is absent, and the
workflow does not advance (the controller blocks on errors). -/
theorem f301_scenario :
    fieldSeverity stateF301 (fieldPath 0) = Severity.error ∧
    fieldMessage stateF301 (fieldPath 0) = feedbackText "F301" ∧
    fieldSeverity stateF301 (fieldPath 1) = Severity.none ∧
    fieldSeverity stateF301 (fieldPath 2) = Severity.none ∧
    fieldSeverity stateF301 (fieldPath 3) = Severity.none ∧
    fieldSeverity stateF301 (fieldPath 4) = Severity.none ∧
    fieldSeverity stateF301 (fieldPath 5) = Severity.none ∧
    fieldSeverity stateF301 (fieldPath 6) = Severity.none ∧
    errorBanner stateF301 = [feedbackText "F301"] ∧
    warningBanner stateF301 = [] ∧
    stateF301.phase = Phase.blockedErrors := by
  decide

/-- C8. After a warnings-only outcome that is not acknowledged, invoking
submit again issues no network request, leaves the state unchanged and
raises the user-visible acknowledgement prompt. -/
theorem resubmit_without_ack (sid en : Nat) (s : FormState)
    (o : ValidationOutcome) (h1 : s.outcome = Option.some o)
    (h2 : o.errors = []) (h3 : o.warnings ≠ [])
    (h4 : s.acknowledged = false) (h5 : s.phase ≠ Phase.submitting) :
    (step sid en s InputEvent.clickSubmit).2.requests = [] ∧
    (step sid en s InputEvent.clickSubmit).2.alert = Option.some ackAlertText ∧
    (step sid en s InputEvent.clickSubmit).1 = s := by
  have hblocked : submitBlockedByAck s = true := by
    unfold submitBlockedByAck
    rw [h1]
    cases hw : o.warnings with
    | nil => exact absurd hw h3
    | cons w ws => simp [requiresAck, h2, hw, h4]
  simp [step, trySubmit, h5, hblocked]

/-- C8 witness: resubmitting from the W.301 warnings-blocked state
without acknowledging issues no request and raises the prompt. -/
theorem resubmit_without_ack_witness :
    (step 1 1 warnBlockedState InputEvent.clickSubmit).2.requests = [] ∧
    (step 1 1 warnBlockedState InputEvent.clickSubmit).2.alert
      = Option.some ackAlertText := by
  have h := resubmit_without_ack 1 1 warnBlockedState outcomeW301
    (by decide) (by decide) (by decide) (by decide) (by decide)
  exact ⟨h.1, h.2.1⟩

/-- C9. Every unblocked explicit submit issues exactly one POST request
to `/api/polling_stations/{stationId}/data_entries/{entryNumber}` whose
`data.differences_counts` holds exactly the seven integer fields with
the current form values. -/
theorem submit_request_shape (sid en : Nat) (s : FormState)
    (h1 : s.phase ≠ Phase.submitting) (h2 : submitBlockedByAck s = false) :
    (step sid en s InputEvent.clickSubmit).2.requests =
      [{ url := "/api/polling_stations/" ++ toString sid
             ++ "/data_entries/" ++ toString en
         method := "POST"
         differences_counts :=
           { more_ballots_count := digitsToNat (s.buffers 0)
             fewer_ballots_count := digitsToNat (s.buffers 1)
             unreturned_ballots_count := digitsToNat (s.buffers 2)
             too_few_ballots_handed_out_count := digitsToNat (s.buffers 3)
             too_many_ballots_handed_out_count := digitsToNat (s.buffers 4)
             other_explanation_count := digitsToNat (s.buffers 5)
             no_explanation_count := digitsToNat (s.buffers 6) } }] := by
  simp [step, trySubmit, h1, h2, buildRequest, currentCounts]

/-- The form with the values of the request-body test: 2, 0, 0, 0, 1, 0,
1 in the seven difference fields. -/
def enteredState : FormState :=
  { initialState with
      buffers := fun i =>
        if i = 0 then ['2'] else if i = 4 then ['1']
        else if i = 6 then ['1'] else [] }

/-- C9 witness: submitting the test's values posts
`/api/polling_stations/1/data_entries/1` with exactly those counts. -/
theorem submit_request_shape_witness :
    (step 1 1 enteredState InputEvent.clickSubmit).2.requests =
      [{ url := "/api/polling_stations/1/data_entries/1"
         method := "POST"
         differences_counts := ⟨2, 0, 0, 0, 1, 0, 1⟩ }] := by
  have h := submit_request_shape 1 1 enteredState (by decide) (by decide)
  exact h.trans (by decide)

/-- The acknowledgement scenario trace: submit, W.301 warnings-only
response, tick the acknowledgement checkbox, submit again, receive the
same warnings-only response. -/
def w301AckTrace : List InputEvent :=
  [InputEvent.clickSubmit, InputEvent.response outcomeW301,
   InputEvent.toggleAck, InputEvent.clickSubmit,
   InputEvent.response outcomeW301]

/-- The form right after the first warnings-only response. -/
def midWarnState : FormState :=
  (runTrace 1 1 initialState (w301AckTrace.take 2)).1

/-- The form after acknowledging and resubmitting with unchanged values,
re-receiving the same warnings-only response. -/
def ackResubmitState : FormState :=
  (runTrace 1 1 initialState w301AckTrace).1

set_option maxRecDepth 8192 in
/-- C10. After acknowledging a warnings-only outcome and resubmitting
with unchanged values (re-receiving the same warnings-only response),
every previously warning-marked field becomes valid with no accessible
message, while the aggregate warning banner keeps its original message
and the submission is accepted. -/
theorem ack_resubmit_fields_valid :
    (fieldSeverity midWarnState (fieldPath 0) = Severity.warning ∧
     fieldSeverity midWarnState (fieldPath 2) = Severity.warning ∧
     fieldSeverity midWarnState (fieldPath 3) = Severity.warning ∧
     fieldSeverity midWarnState (fieldPath 4) = Severity.warning ∧
     fieldSeverity midWarnState (fieldPath 5) = Severity.warning ∧
     fieldSeverity midWarnState (fieldPath 6) = Severity.warning) ∧
    (fieldSeverity ackResubmitState (fieldPath 0) = Severity.none ∧
     fieldSeverity ackResubmitState (fieldPath 1) = Severity.none ∧
     fieldSeverity ackResubmitState (fieldPath 2) = Severity.none ∧
     fieldSeverity ackResubmitState (fieldPath 3) = Severity.none ∧
     fieldSeverity ackResubmitState (fieldPath 4) = Severity.none ∧
     fieldSeverity ackResubmitState (fieldPath 5) = Severity.none ∧
     fieldSeverity ackResubmitState (fieldPath 6) = Severity.none) ∧
    (fieldMessage ackResubmitState (fieldPath 0) = "" ∧
     fieldMessage ackResubmitState (fieldPath 2) = "" ∧
     fieldMessage ackResubmitState (fieldPath 3) = "" ∧
     fieldMessage ackResubmitState (fieldPath 4) = "" ∧
     fieldMessage ackResubmitState (fieldPath 5) = "" ∧
     fieldMessage ackResubmitState (fieldPath 6) = "") ∧
    warningBanner ackResubmitState = [feedbackText "W301"] ∧
    ackResubmitState.phase = Phase.accepted := by
  decide

end Abacus
